import Mathlib

/-!
A shallow embedding of the query classification and multi-path orchestration
engine of the single-agent RAG project, together with proofs about the claims
of its specification.

Conventions of the embedding:
* Python strings are Lean `String`s; machine floats are idealized as `ℚ`
  (all quantities the verified claims touch are exactly representable).
* A Python function that may raise is modelled as returning `Option`/`Except`,
  or takes an explicit environment describing the behaviour of its external
  collaborators (language model, web search, vector store); `none`/`.error`
  models a raised exception that the caller observes.
* Python dictionaries with a fixed key set are modelled as structures; a key
  that may be absent becomes an `Option` field (`none` = key absent).
-/

namespace RagSpec

/-! ## String utilities (Python semantics) -/

/-- `startsWithChars needle hay` is true when `needle` is a prefix of `hay`. -/
def startsWithChars : List Char → List Char → Bool
  | [], _ => true
  | _ :: _, [] => false
  | a :: as, b :: bs => a == b && startsWithChars as bs

/-- `occursChars needle hay` is true when `needle` occurs contiguously in `hay`. -/
def occursChars (needle : List Char) : List Char → Bool
  | [] => needle.isEmpty
  | c :: t => startsWithChars needle (c :: t) || occursChars needle t

/-- Python `needle in hay` for strings. -/
def containsStr (hay needle : String) : Bool :=
  occursChars needle.data hay.data

/-- Python `c in query` for a single character. -/
def containsChar (s : String) (c : Char) : Bool :=
  s.data.any (fun d => d == c)

/-- Python `str.lower()` (ASCII): `String.toLower`, stated through the
character list so that the kernel can evaluate it. -/
def strLower (s : String) : String :=
  String.mk (s.data.map Char.toLower)

/-- Maximal runs of characters satisfying `keep`, in order of occurrence. -/
def keepRuns (keep : Char → Bool) : List Char → List (List Char)
  | [] => []
  | c :: cs =>
    let rest := keepRuns keep cs
    if keep c then
      match cs with
      | [] => [[c]]
      | d :: _ =>
        if keep d then
          match rest with
          | r :: rs => (c :: r) :: rs
          | [] => [[c]]
        else [c] :: rest
    else rest

/-- Python `str.split()` with no argument: whitespace runs separate words,
empty strings are dropped. -/
def pySplit (s : String) : List String :=
  (keepRuns (fun c => !c.isWhitespace) s.data).map (fun l => String.mk l)

/-- A Python `\w` word character (ASCII fragment: letters, digits, underscore). -/
def isWordChar (c : Char) : Bool := c.isAlphanum || c == '_'

/-- The maximal word-character runs of a string: exactly the matches of the
regex `\b\w+\b`. -/
def wordRuns (s : String) : List String :=
  (keepRuns isWordChar s.data).map (fun l => String.mk l)

/-! ## QueryAnalyzer (src/query_processing/analyzer.py) -/

/-- `temporal_aspects` dict produced by `_analyze_temporal_aspects`. -/
structure TemporalAspects where
  requires_current_info : Bool
  temporal_indicators : List String
deriving DecidableEq, Repr

/-- `calculation_aspects` dict produced by `_analyze_calculation_aspects`. -/
structure CalculationAspects where
  requires_calculation : Bool
  has_numbers : Bool
deriving DecidableEq, Repr

/-- The `metadata` dict of a `QueryAnalysis`; each field is `none` when the
key is absent (the default `QueryAnalysis()` has an empty metadata dict). -/
structure AnalysisMetadata where
  length : Option Nat
  word_count : Option Nat
  has_question_mark : Option Bool
  error : Option String
deriving DecidableEq, Repr

/-- The `QueryAnalysis` dataclass.  `temporal_aspects`/`calculation_aspects`
are `none` when left as the default empty dicts. -/
structure QueryAnalysis where
  complexity : ℚ
  keywords : List String
  entities : List String
  topic : Option String
  temporal_aspects : Option TemporalAspects
  calculation_aspects : Option CalculationAspects
  metadata : AnalysisMetadata
deriving DecidableEq, Repr

/-- The stopword set of `_extract_keywords`. -/
def stopwords : List String :=
  ["the", "a", "an", "and", "or", "but", "in", "on", "at", "to", "is"]

/-- `QueryAnalyzer._extract_keywords`: lowercase word runs minus stopwords. -/
def extract_keywords (q : String) : List String :=
  (wordRuns (strLower q)).filter (fun w => !stopwords.contains w)

/-- `QueryAnalyzer._find_entities`: the matches of `\b[A-Z]{2,}\b`, i.e. the
maximal word runs made of two or more uppercase letters only. -/
def find_entities (q : String) : List String :=
  ((keepRuns isWordChar q.data).filter
    (fun run => run.length ≥ 2 && run.all Char.isUpper)).map (fun l => String.mk l)

/-- `QueryAnalyzer._calculate_complexity`: the fraction of the four boolean
signals satisfied. -/
def calculate_complexity (q : String) : ℚ :=
  let factors : List Bool :=
    [decide (q.length > 100), containsStr q "?", containsStr q "and", containsStr q "or"]
  mkRat (factors.count true) 4

/-- The recency indicator words of `_analyze_temporal_aspects` (dict keys, in
insertion order). -/
def time_indicators : List String :=
  ["recent", "latest", "last", "current", "now", "today"]

/-- `QueryAnalyzer._analyze_temporal_aspects`. -/
def analyze_temporal_aspects (q : String) : TemporalAspects :=
  { requires_current_info := time_indicators.any (fun i => containsStr (strLower q) i)
    temporal_indicators := time_indicators.filter (fun i => containsStr (strLower q) i) }

/-- The calculation indicators of `_analyze_calculation_aspects` (checked
against the raw, non-lowercased query). -/
def calc_indicators : List String :=
  ["+", "-", "*", "/", "%", "calculate", "sum", "multiply"]

/-- `QueryAnalyzer._analyze_calculation_aspects`. -/
def analyze_calculation_aspects (q : String) : CalculationAspects :=
  { requires_calculation := calc_indicators.any (fun i => containsStr q i)
    has_numbers := q.data.any Char.isDigit }

/-- The body of `QueryAnalyzer.analyze` (the `try` block). -/
def analyzeCore (q : String) : QueryAnalysis :=
  { complexity := calculate_complexity q
    keywords := extract_keywords q
    entities := find_entities q
    topic := none
    temporal_aspects := some (analyze_temporal_aspects q)
    calculation_aspects := some (analyze_calculation_aspects q)
    metadata :=
      { length := some q.length
        word_count := some (pySplit q).length
        has_question_mark := some (containsStr q "?")
        error := none } }

/-- The default-valued `QueryAnalysis()` returned by the `except` branch of
`analyze` (all dataclass defaults; metadata is the empty dict). -/
def defaultQueryAnalysis : QueryAnalysis :=
  { complexity := 0, keywords := [], entities := [], topic := none
    temporal_aspects := none, calculation_aspects := none
    metadata := { length := none, word_count := none,
                  has_question_mark := none, error := none } }

/-- `QueryAnalyzer.analyze`.  `fail = some msg` injects an exception raised
inside the `try` block (reachable in Python, e.g. by a non-string argument);
the `except` branch logs the error and returns `QueryAnalysis()`. -/
def analyze (fail : Option String) (q : String) : QueryAnalysis :=
  match fail with
  | some _ => defaultQueryAnalysis
  | none => analyzeCore q

/-! ## QueryProcessor (src/query_processing/processor.py) -/

/-- `QueryProcessor._determine_path`: the ordered decision tree over an
analysis.  `metadata.get("has_question_mark", False)` is `getD false`. -/
def determine_path (a : QueryAnalysis) : String :=
  if mkRat 7 10 < a.complexity then "advanced"
  else if a.metadata.has_question_mark.getD false then "question"
  else if !a.entities.isEmpty then "entity_focused"
  else "standard"

/-- The path selection rule as worded by the specification (§4.3), for the
refinement comparison with `determine_path`. -/
def determine_path_spec (a : QueryAnalysis) : String :=
  if mkRat 7 10 < a.complexity then "advanced"
  else if a.metadata.has_question_mark.getD false then "question"
  else if !a.entities.isEmpty then "entity_focused"
  else "standard"

/-- `ProcessingResult` (the fields the verified claims reference; the
`suggested_template` text and audit metadata envelope are carried by the
source but inspected by no claim, so they are omitted here). -/
structure ProcessingResult where
  processed_query : String
  analysis : QueryAnalysis
  processing_path : String
deriving DecidableEq, Repr

/-- The successful body of `QueryProcessor.process`: every `_process_*` path
handler returns the query unchanged. -/
def processorProcess (q : String) : ProcessingResult :=
  let a := analyzeCore q
  { processed_query := q, analysis := a, processing_path := determine_path a }

/-! ## QueryMonitor (src/query_processing/monitor.py) -/

/-- The monitor's `metrics` dict.  Wall-clock sample values are environment
time and not modelled; only the count of recorded samples is kept. -/
structure Metrics where
  total_queries : Nat
  successful_queries : Nat
  failed_queries : Nat
  processing_samples : Nat
  path_usage : List (String × Nat)
  errors : List (String × String)
deriving DecidableEq, Repr

/-- The metrics dict as initialized by `QueryMonitor.__init__`. -/
def initialMetrics : Metrics :=
  { total_queries := 0, successful_queries := 0, failed_queries := 0
    processing_samples := 0, path_usage := [], errors := [] }

/-- `path_usage[path] = path_usage.get(path, 0) + 1` on an insertion-ordered
dict. -/
def bumpPath (path : String) : List (String × Nat) → List (String × Nat)
  | [] => [(path, 1)]
  | (k, n) :: rest =>
    if k = path then (k, n + 1) :: rest else (k, n) :: bumpPath path rest

/-- `QueryMonitor.start_processing`. -/
def start_processing (m : Metrics) : Metrics :=
  { m with total_queries := m.total_queries + 1 }

/-- `QueryMonitor.record_success` (the mutation of the metrics dict; the
timing sample value and log line are not modelled). -/
def record_success (path : String) (m : Metrics) : Metrics :=
  { m with successful_queries := m.successful_queries + 1
           processing_samples := m.processing_samples + 1
           path_usage := bumpPath path m.path_usage }

/-- `QueryMonitor.record_failure`. -/
def record_failure (q err : String) (m : Metrics) : Metrics :=
  { m with failed_queries := m.failed_queries + 1
           errors := m.errors ++ [(q, err)] }

/-- `QueryMonitor._calculate_success_rate`, as exposed by `get_metrics`. -/
def success_rate (m : Metrics) : ℚ :=
  if m.total_queries = 0 then 0
  else mkRat m.successful_queries m.total_queries

/-- One fully recorded query, following the monitor's protocol:
`start_processing` followed by `record_success` or `record_failure`. -/
inductive QueryRecord
  | success (query path : String)
  | failure (query error : String)
deriving DecidableEq, Repr

/-- Record one query outcome on the metrics state. -/
def recordOne (m : Metrics) : QueryRecord → Metrics
  | .success _q path => record_success path (start_processing m)
  | .failure q err => record_failure q err (start_processing m)

/-- Record a sequence of query outcomes starting from the initial state. -/
def runMonitor (l : List QueryRecord) : Metrics :=
  l.foldl recordOne initialMetrics

/-- Number of success records in a sequence. -/
def countSuccess (l : List QueryRecord) : Nat :=
  l.countP (fun r => match r with | .success _ _ => true | _ => false)

/-- Number of failure records in a sequence. -/
def countFailure (l : List QueryRecord) : Nat :=
  l.countP (fun r => match r with | .failure _ _ => true | _ => false)

/-! ## Router (src/router/types.py, src/router/chain.py) -/

/-- The `QueryType` enum. -/
inductive QueryType
  | retrieval | direct | calculation | web_search | clarification
deriving DecidableEq, Repr

/-- The `.value` string of each `QueryType` member. -/
def QueryType.value : QueryType → String
  | .retrieval => "retrieval"
  | .direct => "direct"
  | .calculation => "calculation"
  | .web_search => "web_search"
  | .clarification => "clarification"

/-- The enum constructor `QueryType(s)`; `none` models the `ValueError` raised
on a string that is not one of the five values. -/
def queryTypeOfString (s : String) : Option QueryType :=
  if s = "retrieval" then some .retrieval
  else if s = "direct" then some .direct
  else if s = "calculation" then some .calculation
  else if s = "web_search" then some .web_search
  else if s = "clarification" then some .clarification
  else none

/-- The message of the `ValueError` raised by `QueryType(s)`. -/
def invalidQueryTypeMsg (s : String) : String :=
  "\x27" ++ s ++ "\x27 is not a valid QueryType"

/-- `RouterResponse`: its `metadata` dict holds the reasoning string (kept
here as a field) and `patterns_detected`, which is exactly
`check_query_patterns query` and hence a function of the query. -/
structure RouterResponse where
  query_type : QueryType
  confidence : ℚ
  should_retrieve : Bool
  retrieval_query : Option String
  reasoning : String
deriving DecidableEq, Repr

/-- The dict returned by `RouterChain._parse_response`. -/
structure ParsedCandidate where
  query_type : String
  confidence : ℚ
  should_retrieve : Bool
  retrieval_query : String
  reasoning : String
deriving DecidableEq, Repr

/-- The outcome of `json.loads` plus field extraction on the language-model
reply: either the extracted field values (with the dict-`get` defaults
already applied), or a failure covering a JSON decode error and any other
exception raised while extracting or coercing the fields. -/
inductive ParseOutcome
  | fields (query_type : String) (confidence : ℚ) (should_retrieve : Bool)
      (retrieval_query : String) (reasoning : String)
  | failure
deriving DecidableEq, Repr

/-- `RouterChain._parse_response`: on success the `query_type` is lowercased;
on any parse exception the fixed default candidate is returned. -/
def parse_response : ParseOutcome → ParsedCandidate
  | .fields qt c sr rq rs =>
    { query_type := strLower qt
      confidence := c
      should_retrieve := sr
      retrieval_query := rq
      reasoning := rs }
  | .failure =>
    { query_type := "retrieval"
      confidence := mkRat 1 2
      should_retrieve := true
      retrieval_query := ""
      reasoning := "Failed to parse response." }

/-- Web-search cue substrings of `_check_query_patterns`. -/
def web_search_words : List String :=
  ["latest", "recent", "current", "now", "today", "news",
   "update", "newest", "this week", "this month"]

/-- Arithmetic cue characters of `_check_query_patterns` (checked against the
raw query). -/
def calculation_chars : List Char := ['+', '-', '*', '/', '%']

/-- Calculation cue words of `_check_query_patterns`. -/
def calculation_words : List String := ["calculate", "compute", "sum"]

/-- Direct cue phrases of `_check_query_patterns`. -/
def direct_words : List String := ["what is", "who is", "tell me", "explain"]

/-- Retrieval cue substrings of `_check_query_patterns`. -/
def retrieval_words : List String := ["document", "docs", "content", "find in"]

/-- The dict returned by `RouterChain._check_query_patterns`. -/
structure QueryPatterns where
  is_web_search : Bool
  is_calculation : Bool
  is_direct : Bool
  is_retrieval : Bool
deriving DecidableEq, Repr

/-- `RouterChain._check_query_patterns`. -/
def check_query_patterns (query : String) : QueryPatterns :=
  let ql := strLower query
  { is_web_search := web_search_words.any (fun w => containsStr ql w)
    is_calculation := calculation_chars.any (fun c => containsChar query c)
      || calculation_words.any (fun w => containsStr ql w)
    is_direct := direct_words.any (fun w => containsStr ql w)
      && decide ((pySplit query).length < 6)
    is_retrieval := retrieval_words.any (fun w => containsStr ql w) }

/-- The pattern-override if/elif chain of `RouterChain.route`. -/
def apply_pattern_overrides (pat : QueryPatterns) (parsed : ParsedCandidate) :
    ParsedCandidate :=
  if pat.is_web_search then
    { parsed with
        query_type := "WEB_SEARCH"
        confidence := mkRat 9 10
        should_retrieve := false
        reasoning := "Query requires current information" }
  else if pat.is_calculation then
    { parsed with
        query_type := "CALCULATION"
        confidence := mkRat 19 20
        should_retrieve := false
        reasoning := "Query requires mathematical computation" }
  else if pat.is_direct then
    { parsed with
        query_type := "DIRECT"
        confidence := mkRat 4 5
        should_retrieve := false
        reasoning := "Simple direct question" }
  else if pat.is_retrieval then
    { parsed with
        query_type := "RETRIEVAL"
        confidence := mkRat 9 10
        should_retrieve := true
        reasoning := "Query requires document search" }
  else parsed

/-- Behaviour of the language-model call made by `route`: it either raises,
or returns a reply observed through its parse outcome. -/
inductive LLMBehavior
  | raises (msg : String)
  | replies (p : ParseOutcome)
deriving DecidableEq, Repr

/-- The decision built by the top-level `except` clause of `route`. -/
def routeErrorDecision (msg : String) : RouterResponse :=
  { query_type := .retrieval
    confidence := mkRat 1 2
    should_retrieve := true
    retrieval_query := none
    reasoning := "Error in routing: " ++ msg }

/-- `RouterChain.route`.  The final `QueryType(parsed[...].lower())` call can
itself raise (caught by the same `except`), hence the `none` branch. -/
def route (llm : LLMBehavior) (query : String) : RouterResponse :=
  match llm with
  | .raises msg => routeErrorDecision msg
  | .replies p =>
    let parsed := parse_response p
    let pat := check_query_patterns query
    let final := apply_pattern_overrides pat parsed
    match queryTypeOfString (strLower final.query_type) with
    | some qt =>
      { query_type := qt
        confidence := final.confidence
        should_retrieve := final.should_retrieve
        retrieval_query := some final.retrieval_query
        reasoning := final.reasoning }
    | none => routeErrorDecision (invalidQueryTypeMsg (strLower final.query_type))

/-! ## Kernel-computable rational arithmetic

Batteries marks `Rat.add`, `Rat.sub`, `Rat.mul` and `Rat.inv` as
irreducible, so the calculator uses the following `mkRat`/`divInt`-based
operations instead; each is proved equal to the corresponding field
operation on `ℚ`, so the embedding's arithmetic is exactly rational
arithmetic while staying evaluable by `decide`. -/

/-- Addition on `ℚ` through `mkRat`. -/
def ratAdd (a b : ℚ) : ℚ := mkRat (a.num * b.den + b.num * a.den) (a.den * b.den)

/-- Subtraction on `ℚ` through `mkRat`. -/
def ratSub (a b : ℚ) : ℚ := mkRat (a.num * b.den - b.num * a.den) (a.den * b.den)

/-- Multiplication on `ℚ` through `mkRat`. -/
def ratMul (a b : ℚ) : ℚ := mkRat (a.num * b.num) (a.den * b.den)

/-- Division on `ℚ` through `Rat.divInt`. -/
def ratDiv (a b : ℚ) : ℚ := Rat.divInt (a.num * b.den) (a.den * b.num)

/-- Integer powers on `ℚ` through `mkRat`/`divInt`. -/
def ratPow (a : ℚ) (n : Int) : ℚ :=
  if 0 ≤ n then mkRat (a.num ^ n.toNat) (a.den ^ n.toNat)
  else Rat.divInt ((a.den : Int) ^ n.natAbs) (a.num ^ n.natAbs)

theorem ratAdd_eq (a b : ℚ) : ratAdd a b = a + b := (Rat.add_def' a b).symm

theorem ratSub_eq (a b : ℚ) : ratSub a b = a - b := (Rat.sub_def' a b).symm

theorem ratMul_eq (a b : ℚ) : ratMul a b = a * b := by
  rw [ratMul, ← Rat.mkRat_mul_mkRat, Rat.mkRat_self, Rat.mkRat_self]

theorem ratDiv_eq (a b : ℚ) : ratDiv a b = a / b := by
  rw [ratDiv, Rat.div_def, Rat.inv_def, ← Rat.divInt_self a,
    Rat.divInt_mul_divInt' a.num a.den b.den b.num, Rat.divInt_self a]

theorem ratPow_eq_pow (a : ℚ) (k : Nat) : ratPow a k = a ^ k := by
  rw [ratPow, if_pos (Int.ofNat_nonneg k)]
  rw [show ((k : Int)).toNat = k from rfl, ← Rat.num_pow, ← Rat.den_pow, Rat.mkRat_self]

theorem ratPow_eq_zpow (a : ℚ) (n : Int) : ratPow a n = a ^ n := by
  rcases Int.le_or_lt 0 n with h | h
  · obtain ⟨k, rfl⟩ := Int.eq_ofNat_of_zero_le h
    rw [zpow_natCast, ratPow_eq_pow]
  · obtain ⟨k, rfl⟩ := Int.exists_eq_neg_ofNat h.le
    rw [ratPow, if_neg (by omega), zpow_neg, zpow_natCast]
    rw [Rat.inv_def', Rat.den_pow, Rat.num_pow, Int.natAbs_neg]
    norm_num

/-! ## Calculator (src/tools/calculator.py)

`Calculator.evaluate` strips all whitespace, parses the remaining text with
Python's expression parser (`ast.parse(..., mode="eval")`) and folds the tree
with `_eval_node`, which accepts numeric literals, `+ - * / **` binary nodes
and unary negation, and raises on everything else; every exception anywhere
(syntax error, unsupported node, division by zero) is caught and surfaced as
`None`.

The tokenizer/parser below model the fragment of Python expression syntax
reachable from calculator inputs: decimal integer literals, identifiers,
the operators `+ - * / % ** //`, parentheses, calls and argument commas.
Literal forms outside the fragment (floats, hex, underscores in numbers,
strings, ...) are not modelled; no verified claim exercises them.  Python
floats are idealized as exact rationals: overflow and rounding are outside
the model, and `**` is modelled for integral exponents (a fractional
exponent generally yields an irrational float). -/

/-- Tokens of the modelled Python expression fragment. -/
inductive Tok
  | num (n : Nat)
  | name (s : String)
  | plus | minus | star | slash | dstar | dslash | percent
  | lparen | rparen | comma
deriving DecidableEq, Repr

/-- Value of a decimal digit run. -/
def natOfDigits (ds : List Char) : Nat :=
  ds.foldl (fun n c => n * 10 + (c.toNat - 48)) 0

/-- Tokenizer; `fuel` bounds the recursion (callers pass the input length,
and at least one character is consumed per step).  `none` models a Python
`SyntaxError`; Python rejects decimal literals with leading zeros. -/
def tokenize (fuel : Nat) (cs : List Char) : Option (List Tok) :=
  match fuel, cs with
  | _, [] => some []
  | 0, _ :: _ => none
  | f + 1, c :: rest =>
    if c.isDigit then
      let ds := (c :: rest).takeWhile Char.isDigit
      if 2 ≤ ds.length && c = '0' then none
      else do
        let ts ← tokenize f ((c :: rest).dropWhile Char.isDigit)
        some (.num (natOfDigits ds) :: ts)
    else if c.isAlpha || c = '_' then
      let ws := (c :: rest).takeWhile isWordChar
      do
        let ts ← tokenize f ((c :: rest).dropWhile isWordChar)
        some (.name (String.mk ws) :: ts)
    else if c = '*' then
      match rest with
      | '*' :: rest2 => do
        let ts ← tokenize f rest2
        some (.dstar :: ts)
      | _ => do
        let ts ← tokenize f rest
        some (.star :: ts)
    else if c = '/' then
      match rest with
      | '/' :: rest2 => do
        let ts ← tokenize f rest2
        some (.dslash :: ts)
      | _ => do
        let ts ← tokenize f rest
        some (.slash :: ts)
    else if c = '+' then do
      let ts ← tokenize f rest
      some (.plus :: ts)
    else if c = '-' then do
      let ts ← tokenize f rest
      some (.minus :: ts)
    else if c = '%' then do
      let ts ← tokenize f rest
      some (.percent :: ts)
    else if c = '(' then do
      let ts ← tokenize f rest
      some (.lparen :: ts)
    else if c = ')' then do
      let ts ← tokenize f rest
      some (.rparen :: ts)
    else if c = ',' then do
      let ts ← tokenize f rest
      some (.comma :: ts)
    else none

/-- The binary operator node types `_eval_node` can meet. -/
inductive PyOp
  | add | sub | mult | div | pow | mod | floordiv
deriving DecidableEq, Repr

/-- The Python expression AST fragment relevant to `_eval_node`:
`ast.Num`, `ast.BinOp`, `ast.UnaryOp` (with `USub` or `UAdd`), `ast.Name`
and `ast.Call` (the latter three all land in the rejecting branches). -/
inductive PyExpr
  | num (n : Nat)
  | name (s : String)
  | call (f : PyExpr) (args : List PyExpr)
  | binop (op : PyOp) (l r : PyExpr)
  | unaryMinus (e : PyExpr)
  | unaryPlus (e : PyExpr)

mutual

/-- `expr := term (("+" | "-") term)*`. -/
def parseExpr : Nat → List Tok → Option (PyExpr × List Tok)
  | 0, _ => none
  | f + 1, ts => do
    let (e, ts1) ← parseTerm f ts
    parseAddRest f e ts1

/-- Left-associated additive continuation. -/
def parseAddRest : Nat → PyExpr → List Tok → Option (PyExpr × List Tok)
  | 0, _, _ => none
  | f + 1, acc, .plus :: ts => do
    let (e, ts1) ← parseTerm f ts
    parseAddRest f (.binop .add acc e) ts1
  | f + 1, acc, .minus :: ts => do
    let (e, ts1) ← parseTerm f ts
    parseAddRest f (.binop .sub acc e) ts1
  | _ + 1, acc, ts => some (acc, ts)

/-- `term := factor (("*" | "/" | "%" | "//") factor)*`. -/
def parseTerm : Nat → List Tok → Option (PyExpr × List Tok)
  | 0, _ => none
  | f + 1, ts => do
    let (e, ts1) ← parseFactor f ts
    parseMulRest f e ts1

/-- Left-associated multiplicative continuation. -/
def parseMulRest : Nat → PyExpr → List Tok → Option (PyExpr × List Tok)
  | 0, _, _ => none
  | f + 1, acc, .star :: ts => do
    let (e, ts1) ← parseFactor f ts
    parseMulRest f (.binop .mult acc e) ts1
  | f + 1, acc, .slash :: ts => do
    let (e, ts1) ← parseFactor f ts
    parseMulRest f (.binop .div acc e) ts1
  | f + 1, acc, .percent :: ts => do
    let (e, ts1) ← parseFactor f ts
    parseMulRest f (.binop .mod acc e) ts1
  | f + 1, acc, .dslash :: ts => do
    let (e, ts1) ← parseFactor f ts
    parseMulRest f (.binop .floordiv acc e) ts1
  | _ + 1, acc, ts => some (acc, ts)

/-- `factor := ("+" | "-") factor | power` (Python unary precedence). -/
def parseFactor : Nat → List Tok → Option (PyExpr × List Tok)
  | 0, _ => none
  | f + 1, .plus :: ts => do
    let (e, ts1) ← parseFactor f ts
    some (.unaryPlus e, ts1)
  | f + 1, .minus :: ts => do
    let (e, ts1) ← parseFactor f ts
    some (.unaryMinus e, ts1)
  | f + 1, ts => parsePower f ts

/-- `power := atom-with-trailers ["**" factor]` (right associated, binding
tighter than unary minus on the left). -/
def parsePower : Nat → List Tok → Option (PyExpr × List Tok)
  | 0, _ => none
  | f + 1, ts => do
    let (a, ts1) ← parseAtomTrailer f ts
    match ts1 with
    | .dstar :: ts2 => do
      let (e, ts3) ← parseFactor f ts2
      some (.binop .pow a e, ts3)
    | _ => some (a, ts1)

/-- An atom followed by call trailers. -/
def parseAtomTrailer : Nat → List Tok → Option (PyExpr × List Tok)
  | 0, _ => none
  | f + 1, ts => do
    let (a, ts1) ← parseAtom f ts
    parseTrailers f a ts1

/-- `atom := number | identifier | "(" expr ")"`. -/
def parseAtom : Nat → List Tok → Option (PyExpr × List Tok)
  | 0, _ => none
  | _ + 1, .num n :: ts => some (.num n, ts)
  | _ + 1, .name s :: ts => some (.name s, ts)
  | f + 1, .lparen :: ts => do
    let (e, ts1) ← parseExpr f ts
    match ts1 with
    | .rparen :: ts2 => some (e, ts2)
    | _ => none
  | _ + 1, _ => none

/-- Call trailers: `f(...)`, `f(...)(...)`, .... -/
def parseTrailers : Nat → PyExpr → List Tok → Option (PyExpr × List Tok)
  | 0, _, _ => none
  | f + 1, a, .lparen :: ts =>
    (match ts with
      | .rparen :: ts1 => parseTrailers f (.call a []) ts1
      | _ => do
        let (args, ts1) ← parseArgs f ts
        match ts1 with
        | .rparen :: ts2 => parseTrailers f (.call a args) ts2
        | _ => none)
  | _ + 1, a, ts => some (a, ts)

/-- Comma-separated argument list. -/
def parseArgs : Nat → List Tok → Option (List PyExpr × List Tok)
  | 0, _ => none
  | f + 1, ts => do
    let (e, ts1) ← parseExpr f ts
    match ts1 with
    | .comma :: ts2 => do
      let (es, ts3) ← parseArgs f ts2
      some (e :: es, ts3)
    | _ => some ([e], ts1)

end

/-- `operator.pow` on the rational idealization: defined for integral
exponents; `0 ** negative` models the raised `ZeroDivisionError`; a
fractional exponent is outside the rational model. -/
def qpow (b e : ℚ) : Option ℚ :=
  if e.den = 1 then
    if e.num < 0 ∧ b = 0 then none else some (ratPow b e.num)
  else none

/-- `Calculator._eval_node`: `none` models a raised exception (`ValueError`
for a construct outside the allowlist, `ZeroDivisionError`, ...).  The
allowlist check `type(node.op) not in self.allowed_operators` fires before
the operands are evaluated. -/
def evalNode : PyExpr → Option ℚ
  | .num n => some (mkRat n 1)
  | .binop op l r =>
    match op with
    | .mod => none
    | .floordiv => none
    | _ => do
      let lv ← evalNode l
      let rv ← evalNode r
      match op with
      | .add => some (ratAdd lv rv)
      | .sub => some (ratSub lv rv)
      | .mult => some (ratMul lv rv)
      | .div => if rv = 0 then none else some (ratDiv lv rv)
      | .pow => qpow lv rv
      | .mod => none
      | .floordiv => none
  | .unaryMinus e => do
    let v ← evalNode e
    some (ratSub (mkRat 0 1) v)
  | .unaryPlus _ => none
  | .name _ => none
  | .call _ _ => none

/-- `"".join(expression.split())`: remove every whitespace character. -/
def stripWhitespace (s : String) : List Char :=
  s.data.filter (fun c => !c.isWhitespace)

/-- `Calculator.evaluate`. -/
def calcEvaluate (s : String) : Option ℚ :=
  let cs := stripWhitespace s
  if cs.isEmpty then none
  else
    match tokenize cs.length cs with
    | none => none
    | some ts =>
      match parseExpr (8 * (ts.length + 1)) ts with
      | some (e, []) => evalNode e
      | _ => none

/-- A tree uses only the constructs of the calculator's strict grammar:
numeric literals under `+ - * / **` and unary negation. -/
def usesOnlyArith : PyExpr → Bool
  | .num _ => true
  | .binop .mod _ _ => false
  | .binop .floordiv _ _ => false
  | .binop _ l r => usesOnlyArith l && usesOnlyArith r
  | .unaryMinus e => usesOnlyArith e
  | .unaryPlus _ => false
  | .name _ => false
  | .call _ _ => false

/-! ## Math-expression extraction (RAGPipeline._extract_math_expression)

`re.search(r"(\d+[\s\+\-\*/\(\)]+\d+)", query)`: the leftmost occurrence of
one digit run, then at least one character from the separator class
(whitespace and `+ - * / ( )`; note `%` is not in the class), then another
digit run.  For this pattern greedy matching with backtracking coincides
with taking maximal runs, since the digit and separator classes are
disjoint. -/

/-- The separator class `[\s\+\-\*/\(\)]` of the extraction regex. -/
def isMathSep (c : Char) : Bool :=
  c.isWhitespace || c = '+' || c = '-' || c = '*' || c = '/' || c = '(' || c = ')'

/-- Attempt to match the extraction regex at the head of `cs`. -/
def matchMathAt (cs : List Char) : Option (List Char) :=
  let d1 := cs.takeWhile Char.isDigit
  let r1 := cs.dropWhile Char.isDigit
  if d1.isEmpty then none
  else
    let m := r1.takeWhile isMathSep
    let r2 := r1.dropWhile isMathSep
    if m.isEmpty then none
    else
      let d2 := r2.takeWhile Char.isDigit
      if d2.isEmpty then none else some (d1 ++ m ++ d2)

/-- `re.search`: try each start position from the left. -/
def searchMath : List Char → Option (List Char)
  | [] => none
  | c :: cs =>
    match matchMathAt (c :: cs) with
    | some m => some m
    | none => searchMath cs

/-- `RAGPipeline._extract_math_expression`. -/
def extract_math_expression (q : String) : Option String :=
  (searchMath q.data).map (fun l => String.mk l)

/-- Decidable shape check: `m` matches `\d+[\s\+\-\*/\(\)]+\d+` exactly. -/
def isMathExprShape (m : List Char) : Bool :=
  let d1 := m.takeWhile Char.isDigit
  let r1 := m.dropWhile Char.isDigit
  !d1.isEmpty &&
    (let s := r1.takeWhile isMathSep
     let r2 := r1.dropWhile isMathSep
     !s.isEmpty &&
       (!(r2.takeWhile Char.isDigit).isEmpty && (r2.dropWhile Char.isDigit).isEmpty))

/-! ## Orchestrator (src/integration/rag_pipeline.py)

`process_query` is modelled against an environment fixing the behaviour of
every external collaborator reached during dispatch: the language-model call
of the router, `WebSearchTool.search`, the synthesis/direct/generation
`llm.invoke` calls, and the vector store.  The `except` branch of
`process_query` (and the whole failure side of `QueryProcessor.process`) is
unreachable for string queries: `route` and every `_handle_*` helper catch
their exceptions internally, and `QueryProcessor.process` can only raise on
a non-string argument; the embedding therefore covers the paths string
queries can take. -/

/-- A validated web search result (the dict shape `search` returns). -/
structure SearchResult where
  title : String
  link : String
  snippet : String
  source : String
deriving DecidableEq, Repr

/-- The dict shape shared by `_handle_web_search`, `_handle_direct`,
`_handle_search_failure` and `generate_response`: `fallback_used`/`error`
are `false`/`none` when the key is absent. -/
structure HandlerResult where
  response : String
  success : Bool
  error : Option String
  fallback_used : Bool
deriving DecidableEq, Repr

/-- The dict returned by `_handle_calculation`; `result` is `none` when the
key is absent or holds Python `None`. -/
structure CalcHandlerResult where
  success : Bool
  result : Option ℚ
  expression : Option String
  error : Option String
deriving DecidableEq, Repr

/-- The dict returned by `_handle_retrieval`; `selected_store` is `none`
when the key is absent (the fallback dict). -/
structure RetrievalResult where
  context : String
  success : Bool
  selected_store : Option String
  error : Option String
deriving DecidableEq, Repr

/-- Behaviour of the vector store for one query: `noStore` covers a missing
manager, an unknown store and an exception (they all reach the same
fallback), `results` is a reachable store's search result list. -/
inductive RetrievalEnv
  | noStore
  | results (rs : List String)
deriving DecidableEq, Repr

/-- The environment of one `process_query` call: outcomes of every external
call dispatch can make (`.error` models a raised exception). -/
structure PipelineEnv where
  llm : LLMBehavior
  webSearch : Except String (List SearchResult)
  webSynth : Except String String
  direct : Except String String
  retrieval : RetrievalEnv
  storeName : String
  gen : Except String String

/-- Monitor calls observable during one pipeline run. -/
inductive MonitorEvent
  | start | success | failure
deriving DecidableEq, Repr

/-- Apology text of `_handle_web_search` on an exception. -/
def webTroubleMsg : String :=
  "I apologize, but I\x27m having trouble accessing current information right now."

/-- Apology text of `_handle_web_search` on an empty result list. -/
def webNoResultsMsg : String :=
  "I apologize, but I couldn\x27t find any recent information about that topic. " ++
  "You could try:\n1. Rephrasing your question\n2. Being more specific about the timeframe\n" ++
  "3. Checking news websites directly"

/-- Apology text of `_handle_search_failure` when the direct fallback also
fails. -/
def searchFailMsg : String :=
  "I apologize, but I\x27m currently unable to access real-time information, " ++
  "and this question requires current data to answer accurately. " ++
  "Please try again later or rephrase your question."

/-- `RAGPipeline._handle_direct`. -/
def handle_direct (direct : Except String String) : HandlerResult :=
  match direct with
  | .ok r =>
    { response := r, success := true, error := none, fallback_used := false }
  | .error e =>
    { response := "I apologize, but I\x27m having trouble processing that request at the moment."
      success := false
      error := some e
      fallback_used := false }

/-- `RAGPipeline._handle_web_search`: an exception anywhere in the `try`
(including the synthesis `llm.invoke`) lands in the same `except`. -/
def handle_web_search (ws : Except String (List SearchResult))
    (synth : Except String String) : HandlerResult :=
  match ws with
  | .error e =>
    { response := webTroubleMsg, success := false, error := some e, fallback_used := true }
  | .ok [] =>
    { response := webNoResultsMsg
      success := false
      error := some "No search results found"
      fallback_used := true }
  | .ok (_ :: _) =>
    match synth with
    | .ok r => { response := r, success := true, error := none, fallback_used := false }
    | .error e =>
      { response := webTroubleMsg, success := false, error := some e, fallback_used := true }

/-- `RAGPipeline._handle_search_failure`. -/
def handle_search_failure (direct : Except String String) : HandlerResult :=
  let d := handle_direct direct
  if d.success then { d with fallback_used := true }
  else
    { response := searchFailMsg
      success := false
      error := some "Search failed and fallback unavailable"
      fallback_used := true }

/-- `RAGPipeline._handle_calculation`.  The extraction never produces an
empty string, so Python's falsiness test on it is the `none` test. -/
def handle_calculation (q : String) : CalcHandlerResult :=
  match extract_math_expression q with
  | none =>
    { success := false, result := none, expression := none
      error := some "No valid mathematical expression found" }
  | some e =>
    { success := true, result := calcEvaluate e, expression := some e, error := none }

/-- `RAGPipeline._handle_retrieval` (with `_handle_retrieval_fallback`). -/
def handle_retrieval (env : PipelineEnv) : RetrievalResult :=
  match env.retrieval with
  | .noStore =>
    { context := "", success := false, selected_store := none
      error := some "Retrieval failed, no relevant information found." }
  | .results [] =>
    { context := "", success := false, selected_store := none
      error := some "Retrieval failed, no relevant information found." }
  | .results (r :: rs) =>
    { context := String.intercalate "\n\n" (r :: rs)
      success := true
      selected_store := some env.storeName
      error := none }

/-- `RAGPipeline.generate_response`. -/
def generate_response (gen : Except String String) : HandlerResult :=
  match gen with
  | .ok r => { response := r, success := true, error := none, fallback_used := false }
  | .error e =>
    { response := "Failed to generate response", success := false
      error := some e, fallback_used := false }

/-- Python text of `calc_result.get("result")` as interpolated into
`"The result is {...}"`: `"None"` for an absent key or `None` value; float
repr is modelled for integral values (the only ones a claim renders). -/
def calcResultText : Option ℚ → String
  | none => "None"
  | some q => if q.den = 1 then toString q.num ++ ".0" else toString q

/-- The local `response` dict `process_query` builds in each dispatch
branch, flattened to the fields the top-level return reads. -/
structure InnerResponse where
  response : String
  success : Bool
  selected_store : Option String
  fallback_used : Bool
deriving DecidableEq, Repr

/-- The dict returned by `RAGPipeline.process_query` (the fields the claims
reference; the nested metadata envelope is flattened to `fallback_used`). -/
structure PipelineResult where
  query : String
  processed_query : String
  query_type : String
  confidence : ℚ
  response : String
  success : Bool
  selected_store : Option String
  fallback_used : Bool
deriving DecidableEq, Repr

/-- `RAGPipeline.process_query` on a string query, returning its result and
the sequence of monitor calls it makes: `start_processing` and
`record_success` inside `QueryProcessor.process`, then the unconditional
`record_success` of `process_query` itself. -/
def process_query (env : PipelineEnv) (query : String) :
    PipelineResult × List MonitorEvent :=
  let pres := processorProcess query
  let rd := route env.llm pres.processed_query
  let inner : InnerResponse :=
    match rd.query_type with
    | .web_search =>
      let wr := handle_web_search env.webSearch env.webSynth
      if !wr.success then
        let fb := handle_search_failure env.direct
        { response := fb.response, success := fb.success
          selected_store := none, fallback_used := true }
      else
        { response := wr.response, success := wr.success
          selected_store := none, fallback_used := false }
    | .direct =>
      let d := handle_direct env.direct
      { response := d.response, success := d.success
        selected_store := none, fallback_used := false }
    | .calculation =>
      let c := handle_calculation pres.processed_query
      { response := "The result is " ++ calcResultText c.result
        success := c.success
        selected_store := none, fallback_used := false }
    | .retrieval =>
      let r := handle_retrieval env
      if r.success then
        let g := generate_response env.gen
        { response := g.response, success := g.success
          selected_store := r.selected_store, fallback_used := false }
      else
        { response := "Could not find relevant information in the documents."
          success := false
          selected_store := none, fallback_used := true }
    | .clarification =>
      { response := "Unsupported query type.", success := false
        selected_store := none, fallback_used := false }
  ({ query := query
     processed_query := pres.processed_query
     query_type := rd.query_type.value
     confidence := rd.confidence
     response := inner.response
     success := inner.success
     selected_store := inner.selected_store
     fallback_used := inner.fallback_used },
   [.start, .success, .success])

/-! ## Helper lemmas -/

theorem takeWhile_append_all {p : Char → Bool} {l1 : List Char} (l2 : List Char)
    (h : ∀ a ∈ l1, p a = true) :
    List.takeWhile p (l1 ++ l2) = l1 ++ List.takeWhile p l2 := by
  induction l1 with
  | nil => simp
  | cons a t ih =>
    simp [List.takeWhile_cons, h a (by simp), ih (fun b hb => h b (by simp [hb]))]

theorem dropWhile_append_all {p : Char → Bool} {l1 : List Char} (l2 : List Char)
    (h : ∀ a ∈ l1, p a = true) :
    List.dropWhile p (l1 ++ l2) = List.dropWhile p l2 := by
  induction l1 with
  | nil => simp
  | cons a t ih =>
    simp [List.dropWhile_cons, h a (by simp), ih (fun b hb => h b (by simp [hb]))]

theorem takeWhile_all {p : Char → Bool} {l : List Char} (h : ∀ a ∈ l, p a = true) :
    List.takeWhile p l = l := by
  induction l with
  | nil => rfl
  | cons a t ih =>
    simp [List.takeWhile_cons, h a (by simp), ih (fun b hb => h b (by simp [hb]))]

theorem dropWhile_all {p : Char → Bool} {l : List Char} (h : ∀ a ∈ l, p a = true) :
    List.dropWhile p l = [] := by
  induction l with
  | nil => rfl
  | cons a t ih =>
    simp [List.dropWhile_cons, h a (by simp), ih (fun b hb => h b (by simp [hb]))]

theorem takeWhile_cons_of_neg {p : Char → Bool} {a : Char} (l : List Char)
    (h : p a = false) : List.takeWhile p (a :: l) = [] := by
  simp [List.takeWhile_cons, h]

theorem dropWhile_cons_of_neg {p : Char → Bool} {a : Char} (l : List Char)
    (h : p a = false) : List.dropWhile p (a :: l) = a :: l := by
  simp [List.dropWhile_cons, h]

/-- The separator class of the extraction regex contains no digit. -/
theorem sep_not_digit {c : Char} (h : isMathSep c = true) : c.isDigit = false := by
  have h7 : c.isWhitespace = true ∨ c = '+' ∨ c = '-' ∨ c = '*' ∨ c = '/' ∨
      c = '(' ∨ c = ')' := by
    simpa [isMathSep, Bool.or_eq_true, or_assoc] using h
  rcases h7 with hw | h7 | h7 | h7 | h7 | h7 | h7
  · have h4 : c = ' ' ∨ c = '\t' ∨ c = '\r' ∨ c = '\n' := by
      simpa [Char.isWhitespace, Bool.or_eq_true, or_assoc] using hw
    rcases h4 with h4 | h4 | h4 | h4 <;> subst h4 <;> decide
  all_goals subst h7; decide

/-- A digit is not in the separator class. -/
theorem digit_not_sep {c : Char} (h : c.isDigit = true) : isMathSep c = false := by
  cases hs : isMathSep c with
  | false => rfl
  | true => rw [sep_not_digit hs] at h; cases h

/-- Lists of the shape the extraction regex describes satisfy the decidable
shape check. -/
theorem shape_of_parts {d1 s d2 : List Char}
    (hd1 : ∀ a ∈ d1, a.isDigit = true) (h1 : d1 ≠ [])
    (hs : ∀ a ∈ s, isMathSep a = true) (h2 : s ≠ [])
    (hd2 : ∀ a ∈ d2, a.isDigit = true) (h3 : d2 ≠ []) :
    isMathExprShape (d1 ++ (s ++ d2)) = true := by
  obtain ⟨c, s', rfl⟩ := List.exists_cons_of_ne_nil h2
  obtain ⟨c2, d2', rfl⟩ := List.exists_cons_of_ne_nil h3
  have hc : isMathSep c = true := hs c (by simp)
  have hc2 : c2.isDigit = true := hd2 c2 (by simp)
  have e1 : List.takeWhile Char.isDigit (d1 ++ (c :: s' ++ (c2 :: d2'))) = d1 := by
    rw [takeWhile_append_all _ hd1, List.cons_append,
      takeWhile_cons_of_neg _ (sep_not_digit hc), List.append_nil]
  have e2 : List.dropWhile Char.isDigit (d1 ++ (c :: s' ++ (c2 :: d2')))
      = c :: s' ++ (c2 :: d2') := by
    rw [dropWhile_append_all _ hd1, List.cons_append,
      dropWhile_cons_of_neg _ (sep_not_digit hc)]
  have e3 : List.takeWhile isMathSep (c :: s' ++ (c2 :: d2')) = c :: s' := by
    rw [takeWhile_append_all _ hs, takeWhile_cons_of_neg _ (digit_not_sep hc2),
      List.append_nil]
  have e4 : List.dropWhile isMathSep (c :: s' ++ (c2 :: d2')) = c2 :: d2' := by
    rw [dropWhile_append_all _ hs, dropWhile_cons_of_neg _ (digit_not_sep hc2)]
  have e5 : List.takeWhile Char.isDigit (c2 :: d2') = c2 :: d2' := takeWhile_all hd2
  have e6 : List.dropWhile Char.isDigit (c2 :: d2') = [] := dropWhile_all hd2
  simp only [isMathExprShape]
  rw [e1, e2, e3, e4, e5, e6]
  simp [List.isEmpty_iff, h1]

/-- A successful `matchMathAt` yields a prefix of the input that matches the
extraction regex exactly. -/
theorem matchMathAt_sound {cs m : List Char} (h : matchMathAt cs = some m) :
    isMathExprShape m = true ∧ ∃ post, m ++ post = cs := by
  simp only [matchMathAt] at h
  split_ifs at h with h1 h2 h3
  injection h with h
  subst h
  have hd1 : ∀ a ∈ cs.takeWhile Char.isDigit, a.isDigit = true :=
    fun a ha => List.mem_takeWhile_imp ha
  have hs : ∀ a ∈ (cs.dropWhile Char.isDigit).takeWhile isMathSep, isMathSep a = true :=
    fun a ha => List.mem_takeWhile_imp ha
  have hd2 : ∀ a ∈ ((cs.dropWhile Char.isDigit).dropWhile isMathSep).takeWhile Char.isDigit,
      a.isDigit = true := fun a ha => List.mem_takeWhile_imp ha
  have n1 : cs.takeWhile Char.isDigit ≠ [] := by
    intro hx; rw [hx] at h1; simp at h1
  have n2 : (cs.dropWhile Char.isDigit).takeWhile isMathSep ≠ [] := by
    intro hx; rw [hx] at h2; simp at h2
  have n3 : ((cs.dropWhile Char.isDigit).dropWhile isMathSep).takeWhile Char.isDigit ≠ [] := by
    intro hx; rw [hx] at h3; simp at h3
  refine ⟨?_, ?_⟩
  · have := shape_of_parts hd1 n1 hs n2 hd2 n3
    simpa [List.append_assoc] using this
  · refine ⟨((cs.dropWhile Char.isDigit).dropWhile isMathSep).dropWhile Char.isDigit, ?_⟩
    rw [List.append_assoc, List.append_assoc, List.takeWhile_append_dropWhile,
      List.takeWhile_append_dropWhile, List.takeWhile_append_dropWhile]

/-- `re.search` soundness: any hit matches the regex and occurs contiguously
in the input. -/
theorem searchMath_sound :
    ∀ {cs m : List Char}, searchMath cs = some m →
      isMathExprShape m = true ∧ ∃ pre post, pre ++ (m ++ post) = cs := by
  intro cs
  induction cs with
  | nil => intro m h; simp [searchMath] at h
  | cons c t ih =>
    intro m h
    unfold searchMath at h
    cases hm : matchMathAt (c :: t) with
    | some m2 =>
      rw [hm] at h
      injection h with h
      subst h
      obtain ⟨hsh, post, hp⟩ := matchMathAt_sound hm
      exact ⟨hsh, [], post, by simpa using hp⟩
    | none =>
      rw [hm] at h
      obtain ⟨hsh, pre, post, hp⟩ := ih h
      exact ⟨hsh, c :: pre, post, by simp [hp]⟩

/-- Every character of a regex-shaped match is a digit or a separator. -/
theorem shape_chars {m : List Char} (h : isMathExprShape m = true) :
    ∀ c ∈ m, c.isDigit = true ∨ isMathSep c = true := by
  simp only [isMathExprShape, Bool.and_eq_true, Bool.not_eq_true'] at h
  obtain ⟨h1, h2, h3, h4⟩ := h
  intro c hc
  rw [← List.takeWhile_append_dropWhile (p := Char.isDigit) (l := m)] at hc
  rcases List.mem_append.mp hc with hc | hc
  · exact Or.inl (List.mem_takeWhile_imp hc)
  · rw [← List.takeWhile_append_dropWhile (p := isMathSep)
      (l := m.dropWhile Char.isDigit)] at hc
    rcases List.mem_append.mp hc with hc | hc
    · exact Or.inr (List.mem_takeWhile_imp hc)
    · have hnil : List.dropWhile Char.isDigit
          ((m.dropWhile Char.isDigit).dropWhile isMathSep) = [] := by
        simpa [List.isEmpty_iff] using h4
      rw [← List.takeWhile_append_dropWhile (p := Char.isDigit)
        (l := (m.dropWhile Char.isDigit).dropWhile isMathSep), hnil,
        List.append_nil] at hc
      exact Or.inl (List.mem_takeWhile_imp hc)

/-- A tree outside the calculator's strict grammar always evaluates to
`none`. -/
theorem evalNode_none_of_not_arith :
    ∀ e : PyExpr, usesOnlyArith e = false → evalNode e = none
  | .num _ => by simp [usesOnlyArith]
  | .name _ => fun _ => rfl
  | .call _ _ => fun _ => rfl
  | .unaryPlus _ => fun _ => rfl
  | .unaryMinus e => fun h => by
    have he := evalNode_none_of_not_arith e (by simpa [usesOnlyArith] using h)
    simp [evalNode, he]
  | .binop op l r => fun h => by
    cases op with
    | mod => rfl
    | floordiv => rfl
    | add | sub | mult | div | pow =>
      simp only [usesOnlyArith, Bool.and_eq_false_iff] at h
      rcases h with h | h
      · have := evalNode_none_of_not_arith l h
        simp [evalNode, this]
      · have := evalNode_none_of_not_arith r h
        cases hl : evalNode l <;> simp [evalNode, hl, this]

/-- Folding recorded queries over any starting metrics adds the length to
`total_queries` and the per-kind counts to the success/failure counters. -/
theorem runMonitor_counts (l : List QueryRecord) :
    (runMonitor l).total_queries = l.length ∧
    (runMonitor l).successful_queries = countSuccess l ∧
    (runMonitor l).failed_queries = countFailure l := by
  suffices h : ∀ (l : List QueryRecord) (m : Metrics),
      (l.foldl recordOne m).total_queries = m.total_queries + l.length ∧
      (l.foldl recordOne m).successful_queries = m.successful_queries + countSuccess l ∧
      (l.foldl recordOne m).failed_queries = m.failed_queries + countFailure l by
    have := h l initialMetrics
    simpa [runMonitor, initialMetrics] using this
  intro l
  induction l with
  | nil => intro m; simp [countSuccess, countFailure]
  | cons r t ih =>
    intro m
    cases r with
    | success q p =>
      have h := ih (recordOne m (.success q p))
      simp only [recordOne, record_success, start_processing] at h
      obtain ⟨iht, ihs, ihf⟩ := h
      refine ⟨?_, ?_, ?_⟩ <;>
        simp [List.foldl_cons, recordOne, record_success, start_processing,
          countSuccess, countFailure, List.countP_cons, iht, ihs, ihf] <;>
        omega
    | failure q err =>
      have h := ih (recordOne m (.failure q err))
      simp only [recordOne, record_failure, start_processing] at h
      obtain ⟨iht, ihs, ihf⟩ := h
      refine ⟨?_, ?_, ?_⟩ <;>
        simp [List.foldl_cons, recordOne, record_failure, start_processing,
          countSuccess, countFailure, List.countP_cons, iht, ihs, ihf] <;>
        omega

/-- Success and failure records partition a recorded sequence. -/
theorem countSuccess_add_countFailure (l : List QueryRecord) :
    countSuccess l + countFailure l = l.length := by
  induction l with
  | nil => rfl
  | cons r t ih =>
    cases r <;>
      simp [countSuccess, countFailure, List.countP_cons] at * <;>
      omega

/-! ## Claim theorems -/

/-- C1.  The claim says the Monitor receives exactly one update (one success
or one failure record) per top-level `process_query` call.  The code records
the outcome twice: `QueryProcessor.process` records a success internally,
and `process_query` calls `record_success` again before returning — and it
does so even when the dispatched tool failed.  For every environment and
every query the observable monitor call sequence is `start_processing`
followed by two `record_success` calls. -/
theorem c1_monitor_two_updates (env : PipelineEnv) (q : String) :
    (process_query env q).2 =
      [MonitorEvent.start, MonitorEvent.success, MonitorEvent.success] := rfl

/-- C4.  `Calculator.evaluate` is total (it returns `Option ℚ` by
construction, modelling "a number or null, never raises"); `"2+3*4"`
evaluates to `14.0`; empty and whitespace-only input yield null; and every
construct outside numeric literals combined with `+ - * / **`, unary
negation and parentheses — identifiers, calls, `"import os"` — evaluates to
null. -/
theorem c4_calculator_evaluate :
    calcEvaluate "2+3*4" = some 14 ∧
    calcEvaluate "" = none ∧
    calcEvaluate "   " = none ∧
    calcEvaluate "import os" = none ∧
    ∀ e : PyExpr, usesOnlyArith e = false → evalNode e = none :=
  ⟨by decide, by decide, by decide, by decide, evalNode_none_of_not_arith⟩

/-- Witness for C4: the last conjunct applied to the identifier node
`os` (the parse of `"import os"` after whitespace stripping). -/
theorem c4_calculator_evaluate_witness :
    usesOnlyArith (PyExpr.name "importos") = false ∧
    evalNode (PyExpr.name "importos") = none :=
  ⟨rfl, c4_calculator_evaluate.2.2.2.2 (PyExpr.name "importos") rfl⟩

/-- A baseline environment: the router's language model replies with an
unparseable payload, web search returns no results, the direct and
generation calls succeed, and no vector store is reachable. -/
def baseEnv : PipelineEnv :=
  { llm := .replies .failure
    webSearch := .ok []
    webSynth := .ok "web synthesis"
    direct := .ok "Direct answer"
    retrieval := .noStore
    storeName := "docs_store"
    gen := .ok "generated answer" }

/-- C5.  The claim says that when `Calculator.evaluate` returns null for the
extracted expression, the CALCULATION branch reports `success=false`.  The
code does not: `_handle_calculation` returns `success: True` whenever an
expression was extracted, even when `evaluate` rejected it, so the query
`"100/0"` (routed to CALCULATION, expression extracted, evaluation fails
with a division by zero) yields `success=true` and the answer
`"The result is None"`. -/
theorem c5_calculation_none_success :
    calcEvaluate "100/0" = none ∧
    handle_calculation "100/0" =
      { success := true, result := none, expression := some "100/0", error := none } ∧
    (process_query baseEnv "100/0").1.query_type = "calculation" ∧
    (process_query baseEnv "100/0").1.success = true ∧
    (process_query baseEnv "100/0").1.response = "The result is None" :=
  ⟨by decide, by decide, by decide, by decide, by decide⟩

/-- C8.  After the monitor records `N` successes and `M` failures (each
query following the `start_processing` / `record_*` protocol, in any
order), `get_metrics` reports `total_queries = N + M` and a success rate of
`N / (N + M)`, with rate `0` when `N + M = 0`. -/
theorem c8_monitor_success_rate (l : List QueryRecord) (N M : Nat)
    (hN : countSuccess l = N) (hM : countFailure l = M) :
    (runMonitor l).total_queries = N + M ∧
    success_rate (runMonitor l) =
      if N + M = 0 then 0 else (N : ℚ) / ((N : ℚ) + (M : ℚ)) := by
  obtain ⟨ht, hsucc, hfail⟩ := runMonitor_counts l
  have hlen : l.length = N + M := by
    rw [← hN, ← hM, countSuccess_add_countFailure]
  have htot : (runMonitor l).total_queries = N + M := by rw [ht, hlen]
  refine ⟨htot, ?_⟩
  rw [success_rate, htot, hsucc, hN]
  by_cases h0 : N + M = 0
  · simp [h0]
  · rw [if_neg h0, if_neg h0, Rat.mkRat_eq_div]
    push_cast
    rfl

/-- Witness for C8: one success and one failure recorded. -/
theorem c8_monitor_success_rate_witness :
    countSuccess [QueryRecord.success "q1" "standard",
      QueryRecord.failure "q2" "err"] = 1 ∧
    countFailure [QueryRecord.success "q1" "standard",
      QueryRecord.failure "q2" "err"] = 1 ∧
    (runMonitor [QueryRecord.success "q1" "standard",
      QueryRecord.failure "q2" "err"]).total_queries = 1 + 1 ∧
    success_rate (runMonitor [QueryRecord.success "q1" "standard",
      QueryRecord.failure "q2" "err"]) =
      if 1 + 1 = 0 then 0 else ((1 : Nat) : ℚ) / (((1 : Nat) : ℚ) + ((1 : Nat) : ℚ)) := by
  refine ⟨by decide, by decide, ?_, ?_⟩
  · exact (c8_monitor_success_rate _ 1 1 (by decide) (by decide)).1
  · exact (c8_monitor_success_rate _ 1 1 (by decide) (by decide)).2

/-- C9 counterexample.  The claim says that on internal failure the analyzer
returns a default-valued `QueryAnalysis` with the error recorded in
`metadata.error`.  The `except` branch returns a bare `QueryAnalysis()`:
the metadata dict is empty and no error is recorded (it is only logged). -/
theorem c9_metadata_error_counterexample :
    analyze (some "boom") "any query" = defaultQueryAnalysis ∧
    (analyze (some "boom") "any query").metadata.error = none :=
  ⟨rfl, rfl⟩

/-- C9 as amended: `analyze` never raises (it is total by construction),
and on an internal exception it returns the default-valued
`QueryAnalysis()` whose metadata is empty — the error is logged, not
recorded in `metadata.error`. -/
theorem c9_analyzer_default_on_failure (msg q : String) :
    analyze (some msg) q = defaultQueryAnalysis ∧
    (analyze (some msg) q).metadata.error = none ∧
    analyze none q = analyzeCore q :=
  ⟨rfl, rfl, rfl⟩

/-- C10 counterexample.  The claim says every query whose only arithmetic
symbol is `%` yields no extracted expression.  Whitespace is in the regex's
separator class, so `"10 20 % 5"` — whose only arithmetic symbol is `%` —
extracts `"10 20"`, and the calculation handler reports success. -/
theorem c10_percent_counterexample :
    containsChar "10 20 % 5" '%' = true ∧
    containsChar "10 20 % 5" '+' = false ∧
    containsChar "10 20 % 5" '-' = false ∧
    containsChar "10 20 % 5" '*' = false ∧
    containsChar "10 20 % 5" '/' = false ∧
    (check_query_patterns "10 20 % 5").is_web_search = false ∧
    (route (.replies .failure) "10 20 % 5").query_type = QueryType.calculation ∧
    extract_math_expression "10 20 % 5" = some "10 20" ∧
    (handle_calculation "10 20 % 5").success = true := by
  refine ⟨by decide, by decide, by decide, by decide, by decide, by decide,
    by decide, by decide, by decide⟩

/-- C10 as amended: `_extract_math_expression` returns null or a substring
of the query matching `(\d+[\s\+\-\*/\(\)]+\d+)` exactly; `%` is not in the
separator class, so no extracted expression ever contains `%`; a query like
`"10 % 3"` whose digit runs are separated by the `%` sign is still routed
to CALCULATION by the `%` cue but yields no extracted expression, and the
calculation handler then reports `success=false` with the message
`"No valid mathematical expression found"`. -/
theorem c10_extraction_sound :
    (∀ (q s : String), extract_math_expression q = some s →
       isMathExprShape s.data = true ∧
       ∃ pre post, pre ++ (s.data ++ post) = q.data) ∧
    (∀ m : List Char, isMathExprShape m = true → ∀ c ∈ m, ¬ c = '%') ∧
    (route (.replies .failure) "10 % 3").query_type = QueryType.calculation ∧
    extract_math_expression "10 % 3" = none ∧
    handle_calculation "10 % 3" =
      { success := false, result := none, expression := none
        error := some "No valid mathematical expression found" } := by
  refine ⟨?_, ?_, by decide, by decide, by decide⟩
  · intro q s h
    simp only [extract_math_expression, Option.map_eq_some'] at h
    obtain ⟨m, hm, rfl⟩ := h
    exact searchMath_sound hm
  · intro m hm c hc he
    subst he
    rcases shape_chars hm _ hc with hd | hs
    · exact absurd hd (by decide)
    · exact absurd hs (by decide)

/-- Witness for C10's amended universal parts: the extraction on
`"What is 12 + 5?"` hits `"12 + 5"`, which matches the regex shape, occurs
in the query, and contains no `%`. -/
theorem c10_extraction_sound_witness :
    extract_math_expression "What is 12 + 5?" = some "12 + 5" ∧
    isMathExprShape ("12 + 5".data) = true ∧
    (('1' ∈ "12 + 5".data) ∧ ¬ ('1' : Char) = '%') := by
  refine ⟨by decide, ?_, by decide, ?_⟩
  · exact (c10_extraction_sound.1 "What is 12 + 5?" "12 + 5" (by decide)).1
  · exact c10_extraction_sound.2.1 ("12 + 5".data) (by decide) '1' (by decide)

/-- C2 counterexample.  The claim says that when no cue matches, the
language-model candidate stands unmodified.  A reply that parses but whose
`query_type` is not one of the five enum names (here `"banana"`, confidence
0.7, reasoning `"model reasoning"`) makes `QueryType(...)` raise, so `route`
returns the error-fallback decision instead of the candidate. -/
theorem c2_invalid_candidate_counterexample :
    check_query_patterns "hello friend" =
      { is_web_search := false, is_calculation := false
        is_direct := false, is_retrieval := false } ∧
    route (.replies (.fields "banana" (mkRat 7 10) false "" "model reasoning"))
        "hello friend" =
      { query_type := QueryType.retrieval, confidence := mkRat 1 2
        should_retrieve := true, retrieval_query := none
        reasoning := "Error in routing: \x27banana\x27 is not a valid QueryType" } ∧
    ¬ (route (.replies (.fields "banana" (mkRat 7 10) false "" "model reasoning"))
        "hello friend").reasoning = "model reasoning" ∧
    ¬ (route (.replies (.fields "banana" (mkRat 7 10) false "" "model reasoning"))
        "hello friend").confidence = mkRat 7 10 :=
  ⟨by decide, by decide, by decide, by decide⟩

/-- C2 as amended.  Whenever the language-model call returns a reply, the
pattern overrides apply in the fixed precedence web-search > calculation >
direct > retrieval with the fixed confidences 0.9, 0.95, 0.8, 0.9 (all
within 0.8–0.95); in particular a web-search cue forces WEB_SEARCH and a
calculation cue with no web-search cue forces CALCULATION, regardless of
the reply.  If no cue matches, the candidate stands unmodified provided its
(lowercased) `query_type` is one of the five enum names; otherwise `route`
falls back to the error decision (see the counterexample). -/
theorem c2_pattern_override_precedence (p : ParseOutcome) (q : String) :
    ((check_query_patterns q).is_web_search = true →
      route (.replies p) q =
        { query_type := QueryType.web_search, confidence := mkRat 9 10
          should_retrieve := false
          retrieval_query := some (parse_response p).retrieval_query
          reasoning := "Query requires current information" }) ∧
    ((check_query_patterns q).is_web_search = false →
     (check_query_patterns q).is_calculation = true →
      route (.replies p) q =
        { query_type := QueryType.calculation, confidence := mkRat 19 20
          should_retrieve := false
          retrieval_query := some (parse_response p).retrieval_query
          reasoning := "Query requires mathematical computation" }) ∧
    ((check_query_patterns q).is_web_search = false →
     (check_query_patterns q).is_calculation = false →
     (check_query_patterns q).is_direct = true →
      route (.replies p) q =
        { query_type := QueryType.direct, confidence := mkRat 4 5
          should_retrieve := false
          retrieval_query := some (parse_response p).retrieval_query
          reasoning := "Simple direct question" }) ∧
    ((check_query_patterns q).is_web_search = false →
     (check_query_patterns q).is_calculation = false →
     (check_query_patterns q).is_direct = false →
     (check_query_patterns q).is_retrieval = true →
      route (.replies p) q =
        { query_type := QueryType.retrieval, confidence := mkRat 9 10
          should_retrieve := true
          retrieval_query := some (parse_response p).retrieval_query
          reasoning := "Query requires document search" }) ∧
    ((check_query_patterns q).is_web_search = false →
     (check_query_patterns q).is_calculation = false →
     (check_query_patterns q).is_direct = false →
     (check_query_patterns q).is_retrieval = false →
      ∀ qt : QueryType,
        queryTypeOfString (strLower (parse_response p).query_type) = some qt →
        route (.replies p) q =
          { query_type := qt, confidence := (parse_response p).confidence
            should_retrieve := (parse_response p).should_retrieve
            retrieval_query := some (parse_response p).retrieval_query
            reasoning := (parse_response p).reasoning }) := by
  refine ⟨?_, ?_, ?_, ?_, ?_⟩
  · intro h1
    simp only [route, apply_pattern_overrides, h1, if_true]
    rfl
  · intro h1 h2
    simp only [route, apply_pattern_overrides, h1, h2, if_true, if_false,
      Bool.false_eq_true]
    rfl
  · intro h1 h2 h3
    simp only [route, apply_pattern_overrides, h1, h2, h3, if_true, if_false,
      Bool.false_eq_true]
    rfl
  · intro h1 h2 h3 h4
    simp only [route, apply_pattern_overrides, h1, h2, h3, h4, if_true, if_false,
      Bool.false_eq_true]
    rfl
  · intro h1 h2 h3 h4 qt hqt
    simp only [route, apply_pattern_overrides, h1, h2, h3, h4, if_true, if_false,
      Bool.false_eq_true, hqt]

/-- Witness for C2's amended statement: with an unparseable reply, the
recency cue in `"latest news"` forces the WEB_SEARCH decision. -/
theorem c2_pattern_override_precedence_witness :
    (check_query_patterns "latest news").is_web_search = true ∧
    route (.replies .failure) "latest news" =
      { query_type := QueryType.web_search, confidence := mkRat 9 10
        should_retrieve := false, retrieval_query := some ""
        reasoning := "Query requires current information" } :=
  ⟨by decide, (c2_pattern_override_precedence .failure "latest news").1 (by decide)⟩

/-- C3 counterexample.  The claim says a top-level exception during routing
yields the same decision as a parse failure — reasoning
`"Failed to parse response."` with an empty `retrieval_query`.  The
`except` clause instead reports `"Error in routing: <message>"` with
`retrieval_query = None`. -/
theorem c3_route_exception_counterexample :
    route (.raises "boom") "x" =
      { query_type := QueryType.retrieval, confidence := mkRat 1 2
        should_retrieve := true, retrieval_query := none
        reasoning := "Error in routing: boom" } ∧
    ¬ (route (.raises "boom") "x").reasoning = "Failed to parse response." ∧
    ¬ (route (.raises "boom") "x").retrieval_query = some "" :=
  ⟨by decide, by decide, by decide⟩

/-- C3 as amended.  `route` never propagates an exception (it is total by
construction) but the two failure paths differ: an exception anywhere in
the routing call yields RETRIEVAL / 0.5 / should_retrieve with
`retrieval_query = None` and reasoning `"Error in routing: <message>"`,
with no pattern overrides; a parse failure of the reply yields the default
candidate (RETRIEVAL / 0.5 / retrieve / empty retrieval query /
`"Failed to parse response."`) to which the pattern overrides still
apply. -/
theorem c3_route_failure_semantics (q msg : String) :
    route (.raises msg) q =
      { query_type := QueryType.retrieval, confidence := mkRat 1 2
        should_retrieve := true, retrieval_query := none
        reasoning := "Error in routing: " ++ msg } ∧
    (check_query_patterns q =
        { is_web_search := false, is_calculation := false
          is_direct := false, is_retrieval := false } →
      route (.replies .failure) q =
        { query_type := QueryType.retrieval, confidence := mkRat 1 2
          should_retrieve := true, retrieval_query := some ""
          reasoning := "Failed to parse response." }) ∧
    ((check_query_patterns q).is_web_search = true →
      route (.replies .failure) q =
        { query_type := QueryType.web_search, confidence := mkRat 9 10
          should_retrieve := false, retrieval_query := some ""
          reasoning := "Query requires current information" }) := by
  refine ⟨rfl, ?_, ?_⟩
  · intro h
    simp only [route, apply_pattern_overrides, h]
    rfl
  · intro h
    simp only [route, apply_pattern_overrides, h, if_true]
    rfl

/-- Witness for C3's amended statement: a query with no cues, and a query
with a recency cue, under both failure modes. -/
theorem c3_route_failure_semantics_witness :
    route (.raises "boom") "hello" =
      { query_type := QueryType.retrieval, confidence := mkRat 1 2
        should_retrieve := true, retrieval_query := none
        reasoning := "Error in routing: " ++ "boom" } ∧
    route (.replies .failure) "hello" =
      { query_type := QueryType.retrieval, confidence := mkRat 1 2
        should_retrieve := true, retrieval_query := some ""
        reasoning := "Failed to parse response." } ∧
    route (.replies .failure) "latest news" =
      { query_type := QueryType.web_search, confidence := mkRat 9 10
        should_retrieve := false, retrieval_query := some ""
        reasoning := "Query requires current information" } :=
  ⟨(c3_route_failure_semantics "hello" "boom").1,
   (c3_route_failure_semantics "hello" "boom").2.1 (by decide),
   (c3_route_failure_semantics "latest news" "boom").2.2 (by decide)⟩

/-- C6.  When a query is routed to WEB_SEARCH and the web handler fails
(zero valid results, a search exception, or a synthesis failure),
`process_query` falls back to the DIRECT path: the result is tagged
`fallback_used = true`, its `success` equals the DIRECT path's own
outcome, and when the DIRECT path succeeds its answer is returned. -/
theorem c6_web_search_fallback (env : PipelineEnv) (q : String)
    (hroute : (route env.llm q).query_type = QueryType.web_search)
    (hfail : (handle_web_search env.webSearch env.webSynth).success = false) :
    (process_query env q).1.fallback_used = true ∧
    (process_query env q).1.success = (handle_direct env.direct).success ∧
    ((handle_direct env.direct).success = true →
      (process_query env q).1.response = (handle_direct env.direct).response) := by
  have hpq : (processorProcess q).processed_query = q := rfl
  simp only [process_query, hpq, hroute, hfail, Bool.not_false, if_true]
  cases hd : (handle_direct env.direct).success with
  | true =>
    simp [handle_search_failure, hd]
  | false =>
    simp [handle_search_failure, hd]

/-- Witness for C6: with `baseEnv` (unparseable reply, empty web results,
successful direct call) the query `"latest news"` is routed to WEB_SEARCH
and the direct fallback answer is returned with `fallback_used = true`. -/
theorem c6_web_search_fallback_witness :
    (route baseEnv.llm "latest news").query_type = QueryType.web_search ∧
    (handle_web_search baseEnv.webSearch baseEnv.webSynth).success = false ∧
    (process_query baseEnv "latest news").1.fallback_used = true ∧
    (process_query baseEnv "latest news").1.success
      = (handle_direct baseEnv.direct).success ∧
    (process_query baseEnv "latest news").1.response
      = (handle_direct baseEnv.direct).response := by
  have h := c6_web_search_fallback baseEnv "latest news" (by decide) (by decide)
  exact ⟨by decide, by decide, h.1, h.2.1, h.2.2 (by decide)⟩

/-- C7.  Path selection is the ordered decision tree — complexity > 0.7
gives `advanced`, else a question mark gives `question`, else non-empty
entities give `entity_focused`, else `standard` — exactly as the
specification words it; any analysis with complexity at most 0.7 and a
question mark gets `question` regardless of entities; `"What is RAG?"`
(question mark, entities `["RAG"]`, complexity 0.25) gets `question`. -/
theorem c7_path_selection :
    (∀ a : QueryAnalysis, determine_path a = determine_path_spec a) ∧
    (∀ a : QueryAnalysis, a.complexity ≤ mkRat 7 10 →
       a.metadata.has_question_mark.getD false = true →
       determine_path a = "question") ∧
    determine_path (analyzeCore "What is RAG?") = "question" ∧
    (analyzeCore "What is RAG?").entities = ["RAG"] ∧
    (analyzeCore "What is RAG?").complexity = mkRat 1 4 := by
  refine ⟨fun a => rfl, ?_, by decide, by decide, by decide⟩
  intro a h1 h2
  rw [determine_path, if_neg (not_lt.mpr h1), if_pos h2]

/-- Witness for C7: the decision-tree conjunct applied to the analysis of
`"What is RAG?"`. -/
theorem c7_path_selection_witness :
    (analyzeCore "What is RAG?").complexity ≤ mkRat 7 10 ∧
    (analyzeCore "What is RAG?").metadata.has_question_mark.getD false = true ∧
    determine_path (analyzeCore "What is RAG?") = "question" :=
  ⟨by decide, by decide,
    c7_path_selection.2.1 (analyzeCore "What is RAG?") (by decide) (by decide)⟩

end RagSpec
